import Mathlib

/-!
Verification of the GeoPy core against its specification.

The definitions below are shallow embeddings of the corresponding Python
functions in `src/datasets/EC.py`, `src/geodata/base.py` and
`src/datasets/WRF.py`.  Machine floats are modelled as exact decimal
numbers (every numeral these files handle is a short decimal), numpy
arrays as lists, Python dictionaries as association lists, and Python
object identity as an explicit `id` field.  Fallible code returns
`Except`.
-/

set_option autoImplicit false

deriving instance DecidableEq for Except

namespace GeoPy

/-! ## Python string primitives used by the EC parser -/

/-- Numeric value of a list of decimal digit characters. -/
def digitsToNat (cs : List Char) : ℕ :=
  cs.foldl (fun a c => a * 10 + (c.toNat - 48)) 0

/-- Python `str.isdigit()` on the ASCII strings appearing in station files:
true iff the string is nonempty and all characters are decimal digits. -/
def pyIsDigit (s : String) : Bool :=
  !s.isEmpty && s.toList.all Char.isDigit

/-- Python `int(s)` on a string that `isdigit()` accepted. -/
def digitInt (s : String) : ℤ :=
  (digitsToNat s.toList : ℤ)

/-- Python `int(s)`: optional sign followed by decimal digits; `none` where
`int()` raises `ValueError`. -/
def pyInt (s : String) : Option ℤ :=
  match s.toList with
  | [] => none
  | '-' :: t => if !t.isEmpty && t.all Char.isDigit then some (-(digitsToNat t : ℤ)) else none
  | '+' :: t => if !t.isEmpty && t.all Char.isDigit then some (digitsToNat t : ℤ) else none
  | cs => if cs.all Char.isDigit then some (digitsToNat cs : ℤ) else none

/-- Exact decimal number with value `mant / 10 ^ exp`.  This is the model
of the machine floats in these files: every numeral in a station file or
a WRF metadata record is a short decimal, which float parsing and the
arithmetic below treat exactly. -/
structure Dec where
  mant : ℤ
  exp : ℕ
deriving DecidableEq

/-- The rational value of an exact decimal. -/
def Dec.toRat (d : Dec) : ℚ :=
  (d.mant : ℚ) / 10 ^ d.exp

/-- Embedding of an integer as an exact decimal. -/
def Dec.ofInt (n : ℤ) : Dec :=
  ⟨n, 0⟩

/-- Negation of exact decimals. -/
def Dec.neg (a : Dec) : Dec :=
  ⟨-a.mant, a.exp⟩

/-- Addition of exact decimals (common denominator `10 ^ (a.exp + b.exp)`). -/
def Dec.add (a b : Dec) : Dec :=
  ⟨a.mant * 10 ^ b.exp + b.mant * 10 ^ a.exp, a.exp + b.exp⟩

/-- Subtraction of exact decimals. -/
def Dec.sub (a b : Dec) : Dec :=
  Dec.add a (Dec.neg b)

/-- Multiplication of exact decimals. -/
def Dec.mul (a b : Dec) : Dec :=
  ⟨a.mant * b.mant, a.exp + b.exp⟩

/-- Numeric strict order on exact decimals (by cross-multiplication). -/
def Dec.blt (a b : Dec) : Bool :=
  a.mant * 10 ^ b.exp < b.mant * 10 ^ a.exp

/-- Numeric equality on exact decimals (by cross-multiplication); this is
what numpy elementwise `==` observes, not structural equality. -/
def Dec.beq (a b : Dec) : Bool :=
  a.mant * 10 ^ b.exp == b.mant * 10 ^ a.exp

/-- Value of an unsigned decimal numeral with optional fractional part;
`none` if the character list is not of that shape. -/
def pyFloatCore (cs : List Char) : Option Dec :=
  let ip := cs.takeWhile Char.isDigit
  match cs.dropWhile Char.isDigit with
  | [] => if ip.isEmpty then none else some ⟨(digitsToNat ip : ℤ), 0⟩
  | '.' :: fr =>
      if fr.all Char.isDigit && !(ip.isEmpty && fr.isEmpty) then
        some ⟨(digitsToNat ip * 10 ^ fr.length + digitsToNat fr : ℤ), fr.length⟩
      else none
  | _ => none

/-- Python `float(s)` on the plain decimal numerals appearing in station
files (optional sign, digits, optional fractional part), as an exact
decimal; `none` where `float()` raises `ValueError`. -/
def pyFloat (s : String) : Option Dec :=
  match s.toList with
  | '-' :: t => (pyFloatCore t).map Dec.neg
  | '+' :: t => pyFloatCore t
  | cs => pyFloatCore cs

/-- Python prefix comparison `s[:len(p)] == p` (on characters, as the
byte-level library routine does not reduce in proofs). -/
def pyPrefix (p s : String) : Bool :=
  p.toList.isPrefixOf s.toList

/-- Python `s.upper()` (on characters, as the byte-level library routine
does not reduce in proofs). -/
def pyUpper (s : String) : String :=
  String.mk (s.toList.map Char.toUpper)

/-- Python `sub in s` substring test. -/
def pyContains (sub s : String) : Bool :=
  let sl := s.toList
  (List.range (sl.length + 1)).any (fun i => sub.toList.isPrefixOf (sl.drop i))

/-- Python `c in s` membership of a character in a string. -/
def pyHasChar (s : String) (c : Char) : Bool :=
  s.toList.contains c

/-! ## Errors raised by the EC station parser (`geodata.misc` exception kinds) -/

/-- The failure modes of `DailyStationRecord.parseRecord` and of the
`StationRecords` roster loop.  The first six constructors are the
`ParseError` sites, `dateError` is the `DateError` site (carrying the
offending line, as the Python exception does); `indexError` and
`valueError` are the built-in exceptions that escape uncaught. -/
inductive ECError where
  | badToken (tok : String) (line : List String)
  | belowMin (tok : String) (line : List String)
  | aboveMax (tok : String) (line : List String)
  | badCount (count : ℤ) (line : List String)
  | badTitle
  | shortFile
  | seqIdError
  | dateError (line : List String)
  | indexError
  | valueError
deriving DecidableEq

/-- Whether an `ECError` is one of the `ParseError` sites. -/
def ECError.isParseError : ECError → Bool
  | badToken _ _ => true
  | belowMin _ _ => true
  | aboveMax _ _ => true
  | badCount _ _ => true
  | badTitle => true
  | shortFile => true
  | seqIdError => true
  | _ => false

/-! ## DailyStationRecord (EC.py) -/

/-- The station parameters of `DailyStationRecord` (EC.py lines 57-82).
Fields that only matter for header validation and metadata are kept with
their class defaults. -/
structure DailyStationRecord where
  id : String := ""
  name : String := ""
  varName : String := ""
  units : String := ""
  dtype : String := ""
  missing : String := ""
  flags : String := ""
  varmin : Dec := ⟨0, 0⟩
  varmax : Dec := ⟨0, 0⟩
  prov : String := ""
  joined : Bool := false
  begin_year : ℤ := 0
  begin_mon : ℤ := 0
  end_year : ℤ := 0
  end_mon : ℤ := 0
  lat : Dec := ⟨0, 0⟩
  lon : Dec := ⟨0, 0⟩
  alt : Dec := ⟨0, 0⟩
deriving DecidableEq

/-- The month-continuity test of `parseRecord` (EC.py lines 124-127): the
new `(year, mon)` is accepted after `(oldyear, oldmon)` iff it is the next
month in the same year, or a December-to-January rollover. -/
def dateStep (oldyear oldmon year mon : ℤ) : Bool :=
  (year == oldyear && mon == oldmon + 1) ||
    (year == oldyear + 1 && oldmon == 12 && mon == 1)

/-- One value token of a data line, the float/int branch of `parseRecord`
(EC.py lines 144-155): a token whose last character is a digit is parsed
directly; otherwise a single trailing flag character from `flags` is
stripped; anything else is a `ParseError`. -/
def convertToken (r : DailyStationRecord) (line : List String) (num : String) :
    Except ECError Dec :=
  let cs := num.toList
  let lfloat := pyContains "float" r.dtype
  let lint := pyContains "int" r.dtype
  if lfloat && pyHasChar num '.' && decide (1 < cs.length) then
    match cs.getLast? with
    | none => .error .indexError
    | some last =>
      if last.isDigit then
        match pyFloat num with
        | some q => .ok q
        | none => .error .valueError
      else
        match cs.dropLast.getLast? with
        | none => .error .indexError
        | some penult =>
          if penult.isDigit && pyHasChar r.flags last then
            match pyFloat (String.mk cs.dropLast) with
            | some q => .ok q
            | none => .error .valueError
          else .error (.badToken num line)
  else if lint && decide (0 < cs.length) then
    match cs.getLast? with
    | none => .error .indexError
    | some last =>
      if last.isDigit then
        match pyInt num with
        | some n => .ok (Dec.ofInt n)
        | none => .error .valueError
      else
        match cs.dropLast.getLast? with
        | none => .error .indexError
        | some penult =>
          if penult.isDigit && pyHasChar r.flags last then
            match pyInt (String.mk cs.dropLast) with
            | some n => .ok (Dec.ofInt n)
            | none => .error .valueError
          else .error (.badToken num line)
  else .error (.badToken num line)

/-- The inner value loop of `parseRecord` (EC.py lines 142-159): iterate
the value tokens of one data line, advancing the slot counter `zz` for
every token; a token with the missing-value prefix leaves its slot as NaN
(`none`); otherwise the converted value is range-checked and written.
Writing past the end of the array is numpy's `IndexError`. -/
def parseValues (r : DailyStationRecord) (line : List String) :
    List String → ℕ → List (Option Dec) → Except ECError (ℕ × List (Option Dec))
  | [], zz, data => .ok (zz, data)
  | num :: rest, zz, data =>
    if pyPrefix r.missing num then parseValues r line rest (zz + 1) data
    else
      match convertToken r line num with
      | .error e => .error e
      | .ok n =>
        if Dec.blt n r.varmin then .error (.belowMin num line)
        else if Dec.blt r.varmax n then .error (.aboveMax num line)
        else if data.length ≤ zz then .error .indexError
        else parseValues r line rest (zz + 1) (data.set zz (some n))

/-- The expected flat array length of `parseRecord` (EC.py line 116):
31 slots for each month from the begin date to the end date. -/
def tlen (r : DailyStationRecord) : ℤ :=
  ((r.end_year - r.begin_year) * 12 + (r.end_mon - r.begin_mon + 1)) * 31

/-- The line loop of `parseRecord` (EC.py lines 120-164) over the
whitespace-split data lines of the file body.  A line whose first two
tokens are digit strings is a data line: its date must pass `dateStep`
against the running state, its values are parsed only when the line
carries more than 5 value tokens, and the line must then total exactly 31
values; the slot counter advances by 31 for every data line.  Any other
line must be the literal header repeat `Year Mo`.  Reaching the end of
the lines with fewer than `tlen` slots accounted for is a `ParseError`.
(The begin/end date range test in the source is a chain of `pass`
branches and has no effect.) -/
def parseLines (r : DailyStationRecord) :
    ℤ → ℤ → ℕ → List (Option Dec) → List (List String) →
    Except ECError (List (Option Dec))
  | _, _, z, data, [] =>
    if (z : ℤ) < tlen r then .error .shortFile else .ok data
  | oldyear, oldmon, z, data, ll :: rest =>
    match ll with
    | t0 :: t1 :: vals =>
      if pyIsDigit t0 && pyIsDigit t1 then
        if dateStep oldyear oldmon (digitInt t0) (digitInt t1) then
          if 5 < vals.length then
            match parseValues r ll vals z data with
            | .error e => .error e
            | .ok (zz, data') =>
              if (zz : ℤ) ≠ (z : ℤ) + 31 then .error (.badCount ((zz : ℤ) - (z : ℤ)) ll)
              else parseLines r (digitInt t0) (digitInt t1) (z + 31) data' rest
          else parseLines r (digitInt t0) (digitInt t1) (z + 31) data rest
        else .error (.dateError ll)
      else if t0 ≠ "Year" then .error .badTitle
      else if t1 ≠ "Mo" then .error .badTitle
      else parseLines r oldyear oldmon z data rest
    | [t0] =>
      if pyIsDigit t0 then .error .indexError
      else if t0 ≠ "Year" then .error .badTitle
      else .error .indexError
    | [] => .error .indexError

/-- `DailyStationRecord.parseRecord` (EC.py lines 111-170) on the
whitespace-split data lines of the file body (the comma-separated header
line is validated separately by `validateHeader`, which is file I/O).
The daily array is pre-filled with NaN (`none`); the continuity state
starts one month before the begin date.  A negative array length is
numpy's `ValueError`. -/
def parseRecord (r : DailyStationRecord) (lines : List (List String)) :
    Except ECError (List (Option Dec)) :=
  if tlen r < 0 then .error .valueError
  else
    parseLines r r.begin_year (r.begin_mon - 1) 0
      (List.replicate (tlen r).toNat none) lines

/-- The calendar month directly after a given `(year, month)`, following
the spec's words: exactly one month later, with December-to-January
rollover.  Used to compare the source's continuity test against the
spec. -/
def nextMonth (ym : ℤ × ℤ) : ℤ × ℤ :=
  if ym.2 = 12 then (ym.1 + 1, 1) else (ym.1, ym.2 + 1)

/-! ## StationRecords roster parsing (EC.py) -/

/-- The station fields read from one roster row by the
`EC_station_format` conversion table (EC.py lines 230-241). -/
structure ECStation where
  id : String
  prov : String
  begin_year : ℤ
  begin_mon : ℤ
  end_year : ℤ
  end_mon : ℤ
  lat : Dec
  lon : Dec
  alt : Dec
  joined : Bool
  name : String
deriving DecidableEq

/-- Column access `collist[i]`: `IndexError` past the end of the row. -/
def col (row : List String) (i : ℕ) : Except ECError String :=
  match row.get? i with
  | some s => .ok s
  | none => .error .indexError

/-- Column access followed by Python `int` conversion. -/
def colInt (row : List String) (i : ℕ) : Except ECError ℤ :=
  match col row i with
  | .error e => .error e
  | .ok s =>
    match pyInt s with
    | some v => .ok v
    | none => .error .valueError

/-- Column access followed by Python `float` conversion. -/
def colFloat (row : List String) (i : ℕ) : Except ECError Dec :=
  match col row i with
  | .error e => .error e
  | .ok s =>
    match pyFloat s with
    | some v => .ok v
    | none => .error .valueError

/-- One roster row parsed by the column loop of `StationRecords.__init__`
(EC.py lines 315-328) with the default `EC_station_format`: the unnamed
first column is converted by `int` and compared against the 1-based
running row count `z` (a `ParseError` on mismatch), the next ten columns
are converted per the format table, and all remaining tokens are joined
into the free-form station name. -/
def parseStationRow (z : ℕ) (row : List String) : Except ECError ECStation :=
  match colInt row 0 with
  | .error e => .error e
  | .ok v =>
    if (z : ℤ) ≠ v then .error .seqIdError
    else
      match col row 1, col row 2 with
      | .error e, _ => .error e
      | _, .error e => .error e
      | .ok id, .ok prov =>
        match colInt row 3, colInt row 4, colInt row 5, colInt row 6 with
        | .error e, _, _, _ => .error e
        | _, .error e, _, _ => .error e
        | _, _, .error e, _ => .error e
        | _, _, _, .error e => .error e
        | .ok by_, .ok bm, .ok ey, .ok em =>
          match colFloat row 7, colFloat row 8, colFloat row 9, col row 10 with
          | .error e, _, _, _ => .error e
          | _, .error e, _, _ => .error e
          | _, _, .error e, _ => .error e
          | _, _, _, .error e => .error e
          | .ok la, .ok lo, .ok al, .ok jo =>
            .ok { id := id, prov := prov,
                  begin_year := by_, begin_mon := bm,
                  end_year := ey, end_mon := em,
                  lat := la, lon := lo, alt := al,
                  joined := pyUpper jo == "Y",
                  name := String.intercalate " " (row.drop 11) }

/-- The station loop of `StationRecords.__init__` (EC.py lines 311-346)
over the roster rows after the 4-line header block: the row counter `z`
is incremented for every row before any other processing; each parsed
station is kept only if it satisfies the constraints (`ladd`), but
skipped rows still advance the counter.  The per-station file-header
validation (`checkHeader`) is file I/O outside this model, and the
station list is the same for every configured variable. -/
def parseStationRows (ladd : ECStation → Bool) :
    ℕ → List (List String) → Except ECError (List ECStation)
  | _, [] => .ok []
  | z, row :: rest =>
    match parseStationRow (z + 1) row with
    | .error e => .error e
    | .ok st =>
      match parseStationRows ladd (z + 1) rest with
      | .error e => .error e
      | .ok sts => .ok (if ladd st then st :: sts else sts)

/-! ## Axis / Variable / Dataset data model (geodata/base.py)

Python dictionaries are association lists, numpy arrays are a shape plus a
flat list of exact decimals, and Python object identity is an explicit `id`
field on `Axis` (two same-named axes that are distinct objects carry
distinct ids, as in the arena encoding suggested by the spec's design
notes). -/

/-- The failure modes of the data model: a failed `assert`, a raised
`DatasetError`, and an out-of-range list subscript. -/
inductive ModelError where
  | assertionError
  | datasetError
  | indexError
deriving DecidableEq

/-- Lookup in a Python dict modelled as an association list. -/
def dlookup {α : Type} (k : String) : List (String × α) → Option α
  | [] => none
  | (k', v) :: t => if k' = k then some v else dlookup k t

/-- Python `d.copy()` followed by `d.update(e)`: the entries of `d`, with
values overridden by `e` where both have the key, followed by the keys
only `e` has. -/
def dictUpdate (d e : List (String × String)) : List (String × String) :=
  d.map (fun kv =>
      match dlookup kv.1 e with
      | some v => (kv.1, v)
      | none => kv) ++
    e.filter (fun kv => (dlookup kv.1 d).isNone)

/-- Python `d[k] = v`: overwrite the key's binding in place (keeping its
position) if the key exists, else append at the end. -/
def dictSet : List (String × String) → String → String → List (String × String)
  | [], k, v => [(k, v)]
  | (k', w) :: t, k, v => if k' = k then (k, v) :: t else (k', w) :: dictSet t k v

/-- Removal of a key, Python `del d[k]`. -/
def dremove {α : Type} (k : String) (l : List (String × α)) : List (String × α) :=
  l.filter (fun kv => kv.1 ≠ k)

/-- `Axis` (base.py lines 480-551): a named 1-D coordinate variable with a
declared length and an optional coordinate vector (its `data_array`); the
`data` flag of the underlying `Variable` is `coord.isSome`.  The `id`
field stands for Python object identity. -/
structure Axis where
  id : ℕ
  name : String
  units : String
  len : ℕ
  coord : Option (List Dec)
deriving DecidableEq

/-- `Axis.__len__` (base.py line 541): the declared length. -/
def Axis.length (ax : Axis) : ℕ :=
  ax.len

/-- `Axis.updateLength` (base.py lines 545-551): with a coordinate vector
attached, a conflicting length is a failed assertion; without one, the
declared length is simply replaced. -/
def Axis.updateLength (ax : Axis) (length : ℕ) : Except ModelError Axis :=
  match ax.coord with
  | some c => if length = c.length then .ok ax else .error .assertionError
  | none => .ok { ax with len := length }

/-- `Axis.__init__` (base.py lines 492-503) with an explicit coordinate
vector or a plain length: a given vector is loaded (`updateCoord`/`load`),
which sets the declared length to the vector's length; otherwise the
declared length is the given one.  (The 3-tuple linspace convention of
`updateCoord` is not needed here.) -/
def mkAxis (id : ℕ) (name units : String) (length : ℕ) (coord : Option (List Dec)) : Axis :=
  match coord with
  | some c => { id := id, name := name, units := units, len := c.length, coord := some c }
  | none => { id := id, name := name, units := units, len := length, coord := none }

/-- A numpy array: shape plus flat contents in row-major order. -/
structure NDArray where
  shape : List ℕ
  flat : List Dec
deriving DecidableEq

/-- numpy elementwise addition of equal-shape arrays. -/
def NDArray.add (a b : NDArray) : NDArray :=
  { shape := a.shape, flat := List.zipWith Dec.add a.flat b.flat }

/-- numpy elementwise subtraction of equal-shape arrays. -/
def NDArray.sub (a b : NDArray) : NDArray :=
  { shape := a.shape, flat := List.zipWith Dec.sub a.flat b.flat }

/-- numpy elementwise multiplication of equal-shape arrays. -/
def NDArray.mul (a b : NDArray) : NDArray :=
  { shape := a.shape, flat := List.zipWith Dec.mul a.flat b.flat }

/-- `Variable` (base.py lines 110-187): name, units, the ordered axes
(shared objects), the optional backing array (`data_array`, with the
`data` flag being its presence), the stored shape, and the free-form
attribute mapping. -/
structure Variable where
  name : String
  units : String
  axes : List Axis
  data_array : Option NDArray
  shape : List ℕ
  atts : List (String × String)
deriving DecidableEq

/-- The `for ax, n in zip(axes, shape): ax.updateLength(n)` loop of
`Variable.__init__`/`load` (base.py lines 159 and 291-292); as with
Python's `zip`, extra axes beyond the shape are left untouched. -/
def updateAxesLengths : List Axis → List ℕ → Except ModelError (List Axis)
  | [], _ => .ok []
  | axs, [] => .ok axs
  | ax :: axs, n :: ns =>
    match ax.updateLength n with
    | .error e => .error e
    | .ok ax' =>
      match updateAxesLengths axs ns with
      | .error e => .error e
      | .ok axs' => .ok (ax' :: axs')

/-- `Variable.__init__` (base.py lines 115-187) in the configuration the
binary-operator decorator uses: axes given as `Axis` objects, a data
array present, attributes given explicitly.  The number of axes must
match the array dimensionality, and every axis has its length updated
(and checked) against the data shape — once at construction and again by
`load`, with the same outcome, collapsed here into one pass. -/
def mkVariable (name units : String) (axes : List Axis) (data : NDArray)
    (atts : List (String × String)) : Except ModelError Variable :=
  if axes.length ≠ data.shape.length then .error .assertionError
  else
    match updateAxesLengths axes data.shape with
    | .error e => .error e
    | .ok axes' =>
      .ok { name := name, units := units, axes := axes',
            data_array := some data, shape := data.shape, atts := atts }

/-- The coordinate comparison `(lax.coord == rax.coord).all()` of the
binary decorator (base.py lines 58-59): numpy elementwise numeric
equality of the two coordinate vectors, which here (shapes having already
agreed) have equal lengths; a missing vector is a failure. -/
def axisCoordsEqual (lax rax : Axis) : Bool :=
  match lax.coord, rax.coord with
  | some c1, some c2 =>
      c1.length == c2.length && (List.zip c1 c2).all (fun p => Dec.beq p.1 p.2)
  | _, _ => false

/-- Modelled from the spec: the attribute merge of
`BinaryCheckAndCreateVar` (base.py lines 63-65),
`{key: value for key, value in tmp.iteritems() if value == orig.atts[key]}`
with `tmp` the updated copy.  `atts` is an `AttrDict` from
`geodata.misc`, which is not among the sources here; per the spec the
binary operators succeed even when the right operand carries extra
attribute keys and only attributes with agreeing values are kept, so a
key missing from the left operand's mapping compares unequal rather than
raising. -/
def mergedAtts (origAtts otherAtts : List (String × String)) : List (String × String) :=
  (dictUpdate origAtts otherAtts).filter (fun kv => dlookup kv.1 origAtts == some kv.2)

/-- The decorator `BinaryCheckAndCreateVar` (base.py lines 42-76) wrapped
around a binary operation `binOp`: the unit check (when `sameUnits`), the
shape check, the implicit `load()` of an unloaded operand (which for a
data-less base `Variable` is itself a failed assertion), the pairwise
axis-coordinate check, then the attribute merge with the derived name and
units entries, and finally a new `Variable` on the axes of the left
operand — the very same objects, not copies. -/
def binCheckAndCreateVar (sameUnits : Bool)
    (binOp : Variable → Variable → NDArray × String × String)
    (orig other : Variable) : Except ModelError Variable :=
  if sameUnits ∧ orig.units ≠ other.units then .error .assertionError
  else if orig.shape ≠ other.shape then .error .assertionError
  else if orig.data_array.isNone then .error .assertionError
  else if other.data_array.isNone then .error .assertionError
  else if !((List.zip orig.axes other.axes).all (fun p => axisCoordsEqual p.1 p.2)) then
    .error .assertionError
  else
    match binOp orig other with
    | (data, nm, un) =>
      let atts := dictSet (dictSet (mergedAtts orig.atts other.atts) "name" nm) "units" un
      mkVariable nm un orig.axes data atts

/-- `Variable.__add__` (base.py lines 447-453): elementwise sum, name
`"{left} + {right}"`, units of the left operand, same units required.
(The decorator has already guaranteed both arrays are present.) -/
def Variable.add (orig other : Variable) : Except ModelError Variable :=
  binCheckAndCreateVar true
    (fun a b =>
      (NDArray.add (a.data_array.getD ⟨[], []⟩) (b.data_array.getD ⟨[], []⟩),
        a.name ++ " + " ++ b.name, a.units))
    orig other

/-- `Variable.__sub__` (base.py lines 455-461). -/
def Variable.sub (orig other : Variable) : Except ModelError Variable :=
  binCheckAndCreateVar true
    (fun a b =>
      (NDArray.sub (a.data_array.getD ⟨[], []⟩) (b.data_array.getD ⟨[], []⟩),
        a.name ++ " - " ++ b.name, a.units))
    orig other

/-- `Variable.__mul__` (base.py lines 463-469): units are concatenated,
identical units not required. -/
def Variable.mul (orig other : Variable) : Except ModelError Variable :=
  binCheckAndCreateVar false
    (fun a b =>
      (NDArray.mul (a.data_array.getD ⟨[], []⟩) (b.data_array.getD ⟨[], []⟩),
        a.name ++ " x " ++ b.name, a.units ++ " " ++ b.units))
    orig other

/-- `Variable.hasAxis` on an `Axis` argument (base.py lines 218-226): the
`==` between plain-class instances is Python object identity, here
equality including the `id` field. -/
def Variable.hasAxis (v : Variable) (ax : Axis) : Bool :=
  v.axes.contains ax

/-- The instance attributes of a fresh `Dataset`; shortcut attributes for
variables and axes must not collide with them
(`assert name not in self.__dict__`). -/
def reservedNames : List String :=
  ["variables", "axes", "atts"]

/-- `Dataset` (base.py lines 555-576): name-keyed variables and axes plus
global attributes.  The per-name shortcut attributes in `__dict__` mirror
the two dicts and are not modelled separately.  (The Python attribute
named `variables` is called `vars` here because `variables` is reserved
in Lean.) -/
structure Dataset where
  vars : List (String × Variable)
  axes : List (String × Axis)
  atts : List (String × String) := []
deriving DecidableEq

/-- `Dataset.addAxis` (base.py lines 580-590): a new axis name is
registered (unless it collides with another attribute); a known axis name
must refer to the very same `Axis` object.  On the non-exceptional path
the method returns `True` (`self.axes.has_key(ax.name)`), so the
returned value is just the updated dataset. -/
def Dataset.addAxis (ds : Dataset) (ax : Axis) : Except ModelError Dataset :=
  match dlookup ax.name ds.axes with
  | none =>
    if reservedNames.contains ax.name ∨ (dlookup ax.name ds.vars).isSome then
      .error .assertionError
    else .ok { ds with axes := ds.axes ++ [(ax.name, ax)] }
  | some ax' =>
    if ax' = ax then .ok ds else .error .assertionError

/-- The `for ax in var.axes: self.addAxis(ax)` loop of
`Dataset.addVariable`. -/
def Dataset.addAxes (ds : Dataset) : List Axis → Except ModelError Dataset
  | [] => .ok ds
  | ax :: axs =>
    match ds.addAxis ax with
    | .error e => .error e
    | .ok ds' => ds'.addAxes axs

/-- `Dataset.addVariable` (base.py lines 592-602): the variable name must
not collide with an existing attribute (another variable, an axis
shortcut, or a reserved name); the variable's axes are registered or
checked by identity, then the variable itself is registered.  Like
`addAxis`, the method returns `True` on the non-exceptional path. -/
def Dataset.addVariable (ds : Dataset) (v : Variable) : Except ModelError Dataset :=
  if reservedNames.contains v.name ∨ (dlookup v.name ds.vars).isSome ∨
      (dlookup v.name ds.axes).isSome then
    .error .assertionError
  else
    match ds.addAxes v.axes with
    | .error e => .error e
    | .ok ds' => .ok { ds' with vars := ds'.vars ++ [(v.name, v)] }

/-- `Dataset.removeAxis` on an `Axis` argument (base.py lines 604-617):
if an axis of that *name* is registered and no contained variable still
references the argument (by object identity), the registered axis of
that name is deleted and `True` returned; if some variable still needs
it, nothing is removed and the final `not has_key` is `False`; if the
name is not registered at all, the final `not has_key` is `True`. -/
def Dataset.removeAxis (ds : Dataset) (ax : Axis) : Dataset × Bool :=
  match dlookup ax.name ds.axes with
  | some _ =>
    if ds.vars.all (fun kv => !(kv.2.hasAxis ax)) then
      ({ ds with axes := dremove ax.name ds.axes }, true)
    else (ds, false)
  | none => (ds, true)

/-! ## WRF nested-domain grid inference (datasets/WRF.py) -/

/-- The per-domain metadata getWRFgrid reads from a NetCDF file header:
`GRID_ID`, `PARENT_ID`, the fractional 1-based parent-grid start indices
`I_PARENT_START`/`J_PARENT_START`, and the grid spacings `DX`/`DY`. -/
structure WRFDomainMeta where
  grid_id : ℕ
  parent_id : ℕ
  i_parent_start : Dec
  j_parent_start : Dec
  dx : Dec
  dy : Dec
deriving DecidableEq

/-- A GDAL geotransform 6-tuple `(x0, dx, 0, y0, 0, dy)` as built by
`getWRFgrid` (both skews are literal zeros in the source). -/
structure GeoTransform where
  x0 : Dec
  dx : Dec
  rowSkew : Dec
  y0 : Dec
  colSkew : Dec
  dy : Dec
deriving DecidableEq

/-- The literal `0.5` of the origin formulas. -/
def half : Dec :=
  ⟨5, 1⟩

/-- The child-domain geotransform of `getWRFgrid` (WRF.py lines 108-114):
`x0 = px0 + (I_PARENT_START - 0.5) * pdx - 0.5 * dx` and the same formula
in y, with the child's own spacing and zero skews. -/
def childGeotransform (parent : GeoTransform) (dom : WRFDomainMeta) : GeoTransform :=
  { x0 := Dec.sub (Dec.add parent.x0 (Dec.mul (Dec.sub dom.i_parent_start half) parent.dx))
      (Dec.mul half dom.dx),
    dx := dom.dx,
    rowSkew := ⟨0, 0⟩,
    y0 := Dec.sub (Dec.add parent.y0 (Dec.mul (Dec.sub dom.j_parent_start half) parent.dy))
      (Dec.mul half dom.dy),
    colSkew := ⟨0, 0⟩,
    dy := dom.dy }

/-- The nested-domain loop of `getWRFgrid` (WRF.py lines 98-118) over the
domains `2..maxdom` in ascending order: each domain's `GRID_ID` must
equal its position (`DatasetError` otherwise), its parent's geotransform
is read from the accumulated list at `PARENT_ID - 1` (parent ids are
1-based), and its own geotransform is appended for its children. -/
def chainGeotransformsAux :
    ℕ → List GeoTransform → List WRFDomainMeta → Except ModelError (List GeoTransform)
  | _, gts, [] => .ok gts
  | n, gts, d :: rest =>
    if d.grid_id ≠ n then .error .datasetError
    else
      match gts.get? (d.parent_id - 1) with
      | none => .error .indexError
      | some p => chainGeotransformsAux (n + 1) (gts ++ [childGeotransform p d]) rest

/-- The geotransform chain of `getWRFgrid` starting from the root
domain's geotransform. -/
def chainGeotransforms (root : GeoTransform) (doms : List WRFDomainMeta) :
    Except ModelError (List GeoTransform) :=
  chainGeotransformsAux 2 [root] doms

/-! ## Concrete fixtures -/

/-- A temperature-type station record (the `TempDef` parameters, EC.py
lines 217-226) over the given date range. -/
def tempRecord (byr bm ey em : ℤ) : DailyStationRecord :=
  { dtype := "float32", missing := "-9999.9", flags := "Ea",
    varmin := ⟨-100, 0⟩, varmax := ⟨100, 0⟩,
    begin_year := byr, begin_mon := bm, end_year := ey, end_mon := em }

/-- `n` copies of the value token `1.0`. -/
def valueTokens (n : ℕ) : List String :=
  List.replicate n "1.0"

/-! ## C1: month-to-month date continuity -/

/-- C1: `parseRecord` enforces strict month continuity.  For months in
1..12 the continuity test accepts exactly the calendar successor of the
previous line's (year, month), including the December→January rollover;
the gap 1948-03 → 1948-05 raises a `DateError` carrying the offending
line, while 1948-12 → 1949-01 parses to completion. -/
theorem parseRecord_month_continuity :
    (∀ oy om y m : ℤ, 1 ≤ om → om ≤ 12 → 1 ≤ m → m ≤ 12 →
      (dateStep oy om y m = true ↔ (y, m) = nextMonth (oy, om)))
    ∧ parseRecord (tempRecord 1948 3 1948 4)
        [["1948", "3"] ++ valueTokens 31, ["1948", "5"] ++ valueTokens 31] =
      .error (.dateError (["1948", "5"] ++ valueTokens 31))
    ∧ parseRecord (tempRecord 1948 12 1949 1)
        [["1948", "12"] ++ valueTokens 31, ["1949", "1"] ++ valueTokens 31] =
      .ok (List.replicate 62 (some ⟨10, 1⟩)) := by
  refine ⟨?_, by decide, by decide⟩
  intro oy om y m h1 h2 h3 h4
  unfold dateStep nextMonth
  rcases eq_or_ne om 12 with h | h
  · subst h
    simp only [beq_iff_eq, Bool.or_eq_true, Bool.and_eq_true, if_pos, Prod.mk.injEq,
      and_true, decide_eq_true_eq]
    omega
  · simp only [beq_iff_eq, Bool.or_eq_true, Bool.and_eq_true, if_neg h, Prod.mk.injEq,
      decide_eq_true_eq]
    omega

/-- Witness for C1 at the December rollover step. -/
theorem parseRecord_month_continuity_witness :
    dateStep 1948 12 1949 1 = true ↔ ((1949 : ℤ), (1 : ℤ)) = nextMonth (1948, 12) :=
  parseRecord_month_continuity.1 1948 12 1949 1 (by decide) (by decide) (by decide) (by decide)

/-! ## C9: the first data line must carry exactly the begin date -/

/-- C9: the continuity state starts one month before the begin date, so
with a begin month in 1..12 the first data line is accepted only when its
(year, month) is exactly (begin_year, begin_mon); any other first date —
in particular data beginning before the begin date — raises a
`DateError` instead of being scanned past. -/
theorem parseRecord_first_data_line (r : DailyStationRecord) (t0 t1 : String)
    (vals : List String) (rest : List (List String))
    (h0 : pyIsDigit t0 = true) (h1 : pyIsDigit t1 = true)
    (hm1 : 1 ≤ r.begin_mon) (hm2 : r.begin_mon ≤ 12) (htl : 0 ≤ tlen r)
    (hne : ¬(digitInt t0 = r.begin_year ∧ digitInt t1 = r.begin_mon)) :
    parseRecord r ((t0 :: t1 :: vals) :: rest) =
      .error (.dateError (t0 :: t1 :: vals)) := by
  have hds : dateStep r.begin_year (r.begin_mon - 1) (digitInt t0) (digitInt t1) = false := by
    rw [Bool.eq_false_iff]
    intro hc
    unfold dateStep at hc
    simp only [Bool.or_eq_true, Bool.and_eq_true, beq_iff_eq] at hc
    omega
  unfold parseRecord
  rw [if_neg (by omega)]
  simp only [parseLines, h0, h1, hds, Bool.and_self, Bool.false_eq_true, if_false]
  rw [if_pos trivial]

/-- Witness for C9: a file whose data starts at 1947-12 under a 1948-03
begin date is rejected on its first data line. -/
theorem parseRecord_first_data_line_witness :
    parseRecord (tempRecord 1948 3 1948 4) [["1947", "12"] ++ valueTokens 31] =
      .error (.dateError (["1947", "12"] ++ valueTokens 31)) :=
  parseRecord_first_data_line (tempRecord 1948 3 1948 4) "1947" "12" (valueTokens 31) []
    (by decide) (by decide) (by decide) (by decide) (by decide) (by decide)

/-! ## C2: value-token counts per data line -/

/-- C2 counterexample: a data line with only 3 value tokens — 5 or fewer —
is silently skipped, leaving its month's slots as NaN and letting
`parseRecord` succeed, rather than being rejected as the claim states. -/
theorem parseRecord_short_line_skipped :
    parseRecord (tempRecord 1948 1 1948 1) [["1948", "1", "1.0", "2.0", "3.0"]] =
      .ok (List.replicate 31 none) := by decide

set_option maxRecDepth 4000 in
/-- C2 corrected: a data line carrying more than 5 value tokens must total
exactly 31 of them — counts 6..30 and 32..93 fail with the count
`ParseError` (beyond the array, numpy's `IndexError` fires first) — but a
line with 5 or fewer value tokens is silently skipped, its slots left as
NaN, rather than rejected; exactly 31 tokens parse. -/
theorem parseRecord_value_count :
    (∀ n : ℕ, 5 < n → n ≤ 93 → n ≠ 31 →
      parseRecord (tempRecord 1948 1 1948 3) [["1948", "1"] ++ valueTokens n] =
        .error (.badCount (n : ℤ) (["1948", "1"] ++ valueTokens n)))
    ∧ parseRecord (tempRecord 1948 1 1948 3)
        [["1948", "1", "1.0", "2.0", "3.0"],
         ["1948", "2"] ++ valueTokens 31, ["1948", "3"] ++ valueTokens 31] =
      .ok (List.replicate 31 none ++ List.replicate 62 (some ⟨10, 1⟩))
    ∧ parseRecord (tempRecord 1948 1 1948 1) [["1948", "1"] ++ valueTokens 31] =
      .ok (List.replicate 31 (some ⟨10, 1⟩))
    ∧ parseRecord (tempRecord 1948 1 1948 3) [["1948", "1"] ++ valueTokens 94] =
      .error .indexError := by
  refine ⟨?_, by decide, by decide, by decide⟩
  intro n h5 h93 h31
  interval_cases n <;> first | omega | decide

/-- Witness for C2 at a 7-token data line. -/
theorem parseRecord_value_count_witness :
    parseRecord (tempRecord 1948 1 1948 3) [["1948", "1"] ++ valueTokens 7] =
      .error (.badCount 7 (["1948", "1"] ++ valueTokens 7)) :=
  parseRecord_value_count.1 7 (by decide) (by decide) (by decide)

/-! ## C6: axis length versus attached coordinate vector -/

/-- C6: an `Axis` built with a coordinate vector of length `n` has
`len(A) = n`; `updateLength` with any other length fails the assertion;
and on an axis with no coordinate vector attached, `updateLength m` just
sets the declared length to `m`. -/
theorem axis_updateLength_contract (i : ℕ) (nm un : String) (l m : ℕ)
    (c : List Dec) (ax : Axis) (hm : m ≠ c.length) (hax : ax.coord = none) :
    Axis.length (mkAxis i nm un l (some c)) = c.length
    ∧ (mkAxis i nm un l (some c)).updateLength m = .error .assertionError
    ∧ ax.updateLength m = .ok { ax with len := m } := by
  refine ⟨rfl, ?_, ?_⟩
  · unfold mkAxis Axis.updateLength
    simp [hm]
  · unfold Axis.updateLength
    rw [hax]

/-- Witness for C6: a two-point coordinate axis rejects length 5, and a
bare axis accepts it. -/
theorem axis_updateLength_contract_witness :
    Axis.length (mkAxis 0 "x" "" 0 (some [⟨1, 0⟩, ⟨2, 0⟩])) = 2
    ∧ (mkAxis 0 "x" "" 0 (some [⟨1, 0⟩, ⟨2, 0⟩])).updateLength 5 = .error .assertionError
    ∧ (mkAxis 1 "t" "" 4 none).updateLength 5 = .ok { mkAxis 1 "t" "" 4 none with len := 5 } :=
  axis_updateLength_contract 0 "x" "" 0 5 [⟨1, 0⟩, ⟨2, 0⟩] (mkAxis 1 "t" "" 4 none)
    (by decide) (by decide)

/-! ## Exact decimals evaluate to the expected rationals -/

/-- `Dec.neg` is negation of values. -/
theorem Dec.toRat_neg (a : Dec) : a.neg.toRat = -a.toRat := by
  unfold Dec.toRat Dec.neg
  push_cast
  ring

/-- `Dec.add` is addition of values. -/
theorem Dec.toRat_add (a b : Dec) : (Dec.add a b).toRat = a.toRat + b.toRat := by
  unfold Dec.toRat Dec.add
  have ha : ((10 : ℚ)) ^ a.exp ≠ 0 := by positivity
  have hb : ((10 : ℚ)) ^ b.exp ≠ 0 := by positivity
  push_cast
  rw [pow_add]
  field_simp

/-- `Dec.sub` is subtraction of values. -/
theorem Dec.toRat_sub (a b : Dec) : (Dec.sub a b).toRat = a.toRat - b.toRat := by
  unfold Dec.sub
  rw [Dec.toRat_add, Dec.toRat_neg]
  ring

/-- `Dec.mul` is multiplication of values. -/
theorem Dec.toRat_mul (a b : Dec) : (Dec.mul a b).toRat = a.toRat * b.toRat := by
  unfold Dec.toRat Dec.mul
  have ha : ((10 : ℚ)) ^ a.exp ≠ 0 := by positivity
  have hb : ((10 : ℚ)) ^ b.exp ≠ 0 := by positivity
  push_cast
  rw [pow_add]
  field_simp

/-! ## C3: nested-domain origin computation -/

/-- The root geotransform of the spec's worked example: origin
(-15000, -9000), spacings 3000, zero skews. -/
def rootGT : GeoTransform :=
  ⟨⟨-15000, 0⟩, ⟨3000, 0⟩, ⟨0, 0⟩, ⟨-9000, 0⟩, ⟨0, 0⟩, ⟨3000, 0⟩⟩

/-- Domain 2 of the spec's worked example: parent start (10.5, 5.5), own
spacings 1000. -/
def dom2 : WRFDomainMeta :=
  ⟨2, 1, ⟨105, 1⟩, ⟨55, 1⟩, ⟨1000, 0⟩, ⟨1000, 0⟩⟩

/-- A chained geotransform arises from the stored parent entry via the
child-origin formula. -/
def chainedFromParent (res : List GeoTransform) (d : WRFDomainMeta) (k : ℕ) : Prop :=
  res.get? (k + 1) = (res.get? (d.parent_id - 1)).map (fun p => childGeotransform p d)

/-- Structure of a successful geotransform chain: the accumulator is a
stable prefix of the result, and every processed domain's geotransform is
computed from the parent entry stored in the result. -/
theorem chainGeotransformsAux_spec :
    ∀ (doms : List WRFDomainMeta) (n : ℕ) (gts res : List GeoTransform),
      chainGeotransformsAux n gts doms = .ok res →
      gts.length ≤ res.length
      ∧ (∀ i, i < gts.length → res.get? i = gts.get? i)
      ∧ ∀ k (hk : k < doms.length), ∃ p,
          res.get? ((doms.get ⟨k, hk⟩).parent_id - 1) = some p
          ∧ res.get? (gts.length + k) = some (childGeotransform p (doms.get ⟨k, hk⟩)) := by
  intro doms
  induction doms with
  | nil =>
    intro n gts res h
    cases h
    exact ⟨le_rfl, fun i _ => rfl, fun k hk => absurd hk (by simp)⟩
  | cons d rest ih =>
    intro n gts res h
    unfold chainGeotransformsAux at h
    split at h
    · cases h
    · rename_i hgrid
      cases hp : gts.get? (d.parent_id - 1) with
      | none => rw [hp] at h; cases h
      | some p =>
        rw [hp] at h
        obtain ⟨hlen, hagree, hrest⟩ := ih (n + 1) (gts ++ [childGeotransform p d]) res h
        have hlenapp : (gts ++ [childGeotransform p d]).length = gts.length + 1 := by simp
        have hpidlt : d.parent_id - 1 < gts.length := by
          by_contra hge
          push_neg at hge
          rw [List.get?_eq_none.mpr hge] at hp
          cases hp
        refine ⟨by omega, ?_, ?_⟩
        · intro i hi
          rw [hagree i (by omega), List.get?_append (by omega)]
        · intro k hk
          cases k with
          | zero =>
            refine ⟨p, ?_, ?_⟩
            · show res.get? (d.parent_id - 1) = some p
              rw [hagree _ (by omega), List.get?_append hpidlt, hp]
            · show res.get? (gts.length + 0) = some (childGeotransform p d)
              rw [Nat.add_zero, hagree _ (by omega)]
              simpa using List.get?_concat_length gts (childGeotransform p d)
          | succ k' =>
            obtain ⟨p', h1, h2⟩ := hrest k' (by simpa using hk)
            refine ⟨p', by simpa using h1, ?_⟩
            rw [show gts.length + (k' + 1) = (gts ++ [childGeotransform p d]).length + k' by
              rw [hlenapp]; omega]
            simpa using h2

/-- C3 counterexample: at the claim's inputs (parent start 10.5, parent
spacing 3000, parent origin x −15000, own spacing 1000) the chained
origin x evaluates to 14500.0 and is different from the claimed
13000.0. -/
theorem wrf_child_origin_not_13000 :
    chainGeotransforms rootGT [dom2] = .ok [rootGT, childGeotransform rootGT dom2]
    ∧ (childGeotransform rootGT dom2).x0.toRat = 14500
    ∧ (childGeotransform rootGT dom2).x0.toRat ≠ 13000 := by
  have hx : (childGeotransform rootGT dom2).x0 = ⟨14500000, 3⟩ := by decide
  refine ⟨by decide, ?_, ?_⟩ <;> rw [hx] <;> unfold Dec.toRat <;> norm_num

/-- C3 corrected: every non-root domain's lower-left origin is computed
independently in x and y as
`parent_origin + (parent_start_index - 0.5) * parent_spacing - 0.5 * own_spacing`
from the parent's geotransform as stored in the chain — but at the
claim's inputs (parent start x 10.5, parent spacing 3000, parent origin x
−15000, own spacing 1000) the computed own origin x equals exactly
14500.0, not 13000.0. -/
theorem wrf_child_origin_formula :
    (∀ (p : GeoTransform) (d : WRFDomainMeta),
      (childGeotransform p d).x0.toRat =
        p.x0.toRat + (d.i_parent_start.toRat - 1 / 2) * p.dx.toRat - 1 / 2 * d.dx.toRat
      ∧ (childGeotransform p d).y0.toRat =
        p.y0.toRat + (d.j_parent_start.toRat - 1 / 2) * p.dy.toRat - 1 / 2 * d.dy.toRat)
    ∧ (∀ (root : GeoTransform) (doms : List WRFDomainMeta) (res : List GeoTransform),
      chainGeotransforms root doms = .ok res →
      ∀ k (hk : k < doms.length), chainedFromParent res (doms.get ⟨k, hk⟩) k)
    ∧ (childGeotransform rootGT dom2).x0.toRat = 14500 := by
  have hhalf : half.toRat = 1 / 2 := by
    unfold half Dec.toRat
    norm_num
  refine ⟨?_, ?_, ?_⟩
  · intro p d
    constructor <;>
      simp only [childGeotransform, Dec.toRat_sub, Dec.toRat_add, Dec.toRat_mul, hhalf]
  · intro root doms res h k hk
    obtain ⟨-, -, hrest⟩ := chainGeotransformsAux_spec doms 2 [root] res h
    obtain ⟨p, h1, h2⟩ := hrest k hk
    unfold chainedFromParent
    rw [h1]
    show res.get? (k + 1) = some (childGeotransform p (doms.get ⟨k, hk⟩))
    simpa [Nat.add_comm] using h2
  · have hx : (childGeotransform rootGT dom2).x0 = ⟨14500000, 3⟩ := by decide
    rw [hx]
    unfold Dec.toRat
    norm_num

/-- Witness for C3: the two-domain chain of the worked example, checked at
domain 2. -/
theorem wrf_child_origin_formula_witness :
    chainedFromParent [rootGT, childGeotransform rootGT dom2] dom2 0 :=
  wrf_child_origin_formula.2.1 rootGT [dom2] [rootGT, childGeotransform rootGT dom2]
    (by decide) 0 (by decide)

/-! ## C7: identity-based axis registration in a Dataset -/

/-- A two-point coordinate axis named `x` (the registered object). -/
def axShared : Axis :=
  mkAxis 0 "x" "" 0 (some [⟨1, 0⟩, ⟨2, 0⟩])

/-- A distinct axis object with the same name `x` (a different id). -/
def axImpostor : Axis :=
  mkAxis 1 "x" "" 0 (some [⟨1, 0⟩, ⟨2, 0⟩])

/-- A dataset holding just the axis `x`. -/
def dsOneAxis : Dataset :=
  { vars := [], axes := [("x", axShared)], atts := [] }

/-- An unloaded single-axis variable fixture. -/
def varOn (nm : String) (ax : Axis) : Variable :=
  { name := nm, units := "", axes := [ax], data_array := none, shape := [2], atts := [] }

/-- Adding axes that are all already registered as the very same objects
leaves the dataset unchanged. -/
theorem Dataset.addAxes_registered (axs : List Axis) :
    ∀ ds : Dataset, (∀ ax ∈ axs, dlookup ax.name ds.axes = some ax) →
      ds.addAxes axs = .ok ds := by
  induction axs with
  | nil => intro ds _; rfl
  | cons a t ih =>
    intro ds h
    have ha : ds.addAxis a = .ok ds := by
      unfold Dataset.addAxis
      rw [h a (by simp)]
      simp
    unfold Dataset.addAxes
    rw [ha]
    exact ih ds (fun ax hax => h ax (by simp [hax]))

/-- C7: adding a variable whose axis has the name of a registered axis but
is a distinct object fails the identity assertion, while adding a
variable whose axes are exactly the already-registered objects succeeds
and re-registers nothing (the axes dict is unchanged — idempotent
registration by identity). -/
theorem dataset_addVariable_axis_identity :
    (∀ (ds : Dataset) (v : Variable) (ax ax' : Axis), v.axes = [ax'] →
      dlookup ax'.name ds.axes = some ax → ax ≠ ax' →
      ds.addVariable v = .error .assertionError)
    ∧ (∀ (ds : Dataset) (v : Variable),
      (∀ ax ∈ v.axes, dlookup ax.name ds.axes = some ax) →
      reservedNames.contains v.name = false →
      dlookup v.name ds.vars = none → dlookup v.name ds.axes = none →
      ds.addVariable v = .ok { ds with vars := ds.vars ++ [(v.name, v)] }) := by
  constructor
  · intro ds v ax ax' hvax hlook hne
    unfold Dataset.addVariable
    by_cases hcol : reservedNames.contains v.name ∨ (dlookup v.name ds.vars).isSome ∨
        (dlookup v.name ds.axes).isSome
    · rw [if_pos hcol]
    · rw [if_neg hcol, hvax]
      have hax : ds.addAxis ax' = .error .assertionError := by
        unfold Dataset.addAxis
        rw [hlook]
        exact if_neg hne
      unfold Dataset.addAxes
      rw [hax]
  · intro ds v hreg hres hvars haxes
    unfold Dataset.addVariable
    rw [if_neg (by rw [hres, hvars, haxes]; simp)]
    rw [Dataset.addAxes_registered v.axes ds hreg]

/-- Witness for C7: the impostor axis is rejected; the registered object
is accepted idempotently. -/
theorem dataset_addVariable_axis_identity_witness :
    dsOneAxis.addVariable (varOn "v" axImpostor) = .error .assertionError
    ∧ dsOneAxis.addVariable (varOn "v" axShared) =
      .ok { dsOneAxis with vars := dsOneAxis.vars ++ [("v", varOn "v" axShared)] } :=
  ⟨dataset_addVariable_axis_identity.1 dsOneAxis (varOn "v" axImpostor) axShared axImpostor
      rfl (by decide) (by decide),
    dataset_addVariable_axis_identity.2 dsOneAxis (varOn "v" axShared)
      (by decide) (by decide) (by decide) (by decide)⟩

/-! ## C10: removeAxis semantics -/

/-- C10 counterexample: `axImpostor` is not registered in `dsOneAxis` (the
registered object under its name is `axShared`, a different object), yet
`removeAxis` deletes the registered axis and returns `True` — the dataset
is not left unchanged as the claim states. -/
theorem dataset_removeAxis_collision_removes :
    dlookup "x" dsOneAxis.axes = some axShared
    ∧ axShared ≠ axImpostor
    ∧ dsOneAxis.removeAxis axImpostor = ({ vars := [], axes := [], atts := [] }, true) := by
  refine ⟨by decide, by decide, by decide⟩

/-- C10 corrected: `removeAxis` returns `True` and leaves the dataset
unchanged when no axis of that *name* is registered; for a registered
name still referenced (by identity) from some contained variable it
returns `False` without removing anything; and when the name is
registered but no variable references the argument object, the
same-named registered axis is deleted and `True` returned — even when
the argument is a different object than the registered one. -/
theorem dataset_removeAxis_contract :
    (∀ (ds : Dataset) (ax : Axis), dlookup ax.name ds.axes = none →
      ds.removeAxis ax = (ds, true))
    ∧ (∀ (ds : Dataset) (ax : Axis), (dlookup ax.name ds.axes).isSome = true →
      ds.vars.all (fun kv => !(kv.2.hasAxis ax)) = false →
      ds.removeAxis ax = (ds, false))
    ∧ (∀ (ds : Dataset) (ax : Axis), (dlookup ax.name ds.axes).isSome = true →
      ds.vars.all (fun kv => !(kv.2.hasAxis ax)) = true →
      ds.removeAxis ax = ({ ds with axes := dremove ax.name ds.axes }, true)) := by
  refine ⟨?_, ?_, ?_⟩
  · intro ds ax h
    unfold Dataset.removeAxis
    rw [h]
  · intro ds ax h hused
    unfold Dataset.removeAxis
    cases hl : dlookup ax.name ds.axes with
    | none => simp [hl] at h
    | some a => simp [hused]
  · intro ds ax h hfree
    unfold Dataset.removeAxis
    cases hl : dlookup ax.name ds.axes with
    | none => simp [hl] at h
    | some a => simp [hfree]

/-- A dataset with one variable on the shared axis. -/
def dsWithVar : Dataset :=
  { vars := [("v", varOn "v" axShared)], axes := [("x", axShared)], atts := [] }

/-- Witness for C10: an unregistered name reports `True` unchanged, a
referenced axis reports `False` unchanged, and an unreferenced registered
axis is removed with `True`. -/
theorem dataset_removeAxis_contract_witness :
    dsWithVar.removeAxis (mkAxis 2 "y" "" 0 none) = (dsWithVar, true)
    ∧ dsWithVar.removeAxis axShared = (dsWithVar, false)
    ∧ dsOneAxis.removeAxis axShared = ({ dsOneAxis with axes := dremove "x" dsOneAxis.axes }, true) :=
  ⟨dataset_removeAxis_contract.1 dsWithVar (mkAxis 2 "y" "" 0 none) (by decide),
    dataset_removeAxis_contract.2.1 dsWithVar axShared (by decide) (by decide),
    dataset_removeAxis_contract.2.2 dsOneAxis axShared (by decide) (by decide)⟩

/-! ## Dictionary lemmas -/

/-- Lookup distributes over appended dicts, first list first. -/
theorem dlookup_append {α : Type} (k : String) (l1 l2 : List (String × α)) :
    dlookup k (l1 ++ l2) =
      match dlookup k l1 with
      | some v => some v
      | none => dlookup k l2 := by
  induction l1 with
  | nil => rfl
  | cons kv t ih =>
    obtain ⟨k', v⟩ := kv
    by_cases h : k' = k
    · simp [dlookup, h]
    · simp [dlookup, h, ih]

/-- Lookup after the override map of `dictUpdate`: a key of `d` gets `e`'s
value if `e` has the key, otherwise its own. -/
theorem dlookup_overrideMap (k : String) (d e : List (String × String)) :
    dlookup k (d.map fun kv =>
        match dlookup kv.1 e with
        | some v => (kv.1, v)
        | none => kv) =
      match dlookup k d with
      | some v =>
        some (match dlookup k e with
          | some w => w
          | none => v)
      | none => none := by
  induction d with
  | nil => rfl
  | cons kv t ih =>
    obtain ⟨k', v⟩ := kv
    by_cases h : k' = k
    · subst h
      cases he : dlookup k' e <;> simp [dlookup, he]
    · cases he : dlookup k' e <;> simp [dlookup, h, he, ih]

/-- A key absent from the key list looks up to nothing. -/
theorem dlookup_eq_none {α : Type} (k : String) (l : List (String × α))
    (h : k ∉ l.map Prod.fst) : dlookup k l = none := by
  induction l with
  | nil => rfl
  | cons kv t ih =>
    obtain ⟨k', v⟩ := kv
    simp only [List.map_cons, List.mem_cons] at h
    push_neg at h
    unfold dlookup
    rw [if_neg (fun hk => h.1 hk.symm)]
    exact ih h.2

/-- Lookup in a filtered dict with duplicate-free keys: the key's unique
binding survives iff it satisfies the predicate. -/
theorem dlookup_filter_nodup {α : Type} (k : String) (p : String × α → Bool)
    (l : List (String × α)) (hnd : (l.map Prod.fst).Nodup) :
    dlookup k (l.filter p) =
      match dlookup k l with
      | some v => if p (k, v) then some v else none
      | none => none := by
  induction l with
  | nil => rfl
  | cons kv t ih =>
    obtain ⟨k', v⟩ := kv
    simp only [List.map_cons, List.nodup_cons] at hnd
    obtain ⟨hk', hnd'⟩ := hnd
    by_cases h : k' = k
    · subst h
      have ht : dlookup k' t = none := dlookup_eq_none k' t hk'
      by_cases hp : p (k', v)
      · simp [List.filter_cons, hp, dlookup]
      · have htf : dlookup k' (t.filter p) = none := by
          rw [ih hnd', ht]
        simp [List.filter_cons, hp, dlookup, htf, ht]
    · by_cases hp : p (k', v) <;> simp [List.filter_cons, hp, dlookup, h, ih hnd']

/-- Lookup through `dictSet`. -/
theorem dlookup_dictSet (d : List (String × String)) (k' v k : String) :
    dlookup k (dictSet d k' v) = if k' = k then some v else dlookup k d := by
  induction d with
  | nil => by_cases h : k' = k <;> simp [dictSet, dlookup, h]
  | cons kv t ih =>
    obtain ⟨k'', w⟩ := kv
    by_cases h2 : k'' = k'
    · subst h2
      by_cases h : k'' = k
      · subst h
        simp [dictSet, dlookup]
      · simp [dictSet, dlookup, h]
    · by_cases h : k'' = k
      · subst h
        have h3 : ¬(k' = k'') := fun hc => h2 hc.symm
        simp [dictSet, dlookup, h2, h3]
      · simp [dictSet, dlookup, h2, h, ih]

/-- The appended tail of `dictUpdate` contributes nothing to the agreeing
filter of `mergedAtts`: its keys are absent from the left dict, so their
values never agree with a left lookup. -/
theorem mergedAtts_eq_filtered_override (A B : List (String × String)) :
    mergedAtts A B =
      (A.map fun kv =>
        match dlookup kv.1 B with
        | some v => (kv.1, v)
        | none => kv).filter fun kv => dlookup kv.1 A == some kv.2 := by
  unfold mergedAtts dictUpdate
  rw [List.filter_append]
  have : (B.filter fun kv => (dlookup kv.1 A).isNone).filter
      (fun kv => dlookup kv.1 A == some kv.2) = [] := by
    rw [List.filter_eq_nil]
    intro kv hkv
    have hn : (dlookup kv.1 A).isNone = true := (List.mem_filter.mp hkv).2
    rw [Option.isNone_iff_eq_none.mp hn]
    simp
  rw [this, List.append_nil]

/-- Lookup through the attribute merge of the binary decorator: a key of
the left operand survives with its left value iff the right operand does
not disagree; keys absent from the left never survive. -/
theorem dlookup_mergedAtts (A B : List (String × String))
    (hA : (A.map Prod.fst).Nodup) (k : String) :
    dlookup k (mergedAtts A B) =
      match dlookup k A with
      | some va =>
        match dlookup k B with
        | some vb => if vb = va then some va else none
        | none => some va
      | none => none := by
  rw [mergedAtts_eq_filtered_override]
  have hkeys : ((A.map fun kv =>
      match dlookup kv.1 B with
      | some v => (kv.1, v)
      | none => kv).map Prod.fst).Nodup := by
    rw [List.map_map]
    have hf : (Prod.fst ∘ fun kv : String × String =>
        match dlookup kv.1 B with
        | some v => (kv.1, v)
        | none => kv) = Prod.fst := by
      funext kv
      show (match dlookup kv.1 B with
        | some v => (kv.1, v)
        | none => kv).1 = kv.1
      cases dlookup kv.1 B <;> rfl
    rw [hf]
    exact hA
  rw [dlookup_filter_nodup k _ _ hkeys, dlookup_overrideMap]
  cases ha : dlookup k A with
  | none => rfl
  | some va =>
    cases hb : dlookup k B with
    | none => simp [ha]
    | some vb =>
      by_cases hv : vb = va
      · simp [ha, hv]
      · have hv' : ¬va = vb := fun hc => hv hc.symm
        simp [ha, hv, hv']

/-! ## Axis-length update lemmas -/

/-- When every zipped axis has a coordinate vector whose length equals the
corresponding dimension, the axis-length update pass changes nothing. -/
theorem updateAxesLengths_of_consistent :
    ∀ (axes : List Axis) (shape : List ℕ),
      ((List.zip axes shape).all fun p =>
        match p.1.coord with
        | some c => c.length == p.2
        | none => false) = true →
      updateAxesLengths axes shape = .ok axes := by
  intro axes
  induction axes with
  | nil => intro shape _; cases shape <;> rfl
  | cons ax t ih =>
    intro shape h
    cases shape with
    | nil => rfl
    | cons n ns =>
      simp only [List.zip_cons_cons, List.all_cons, Bool.and_eq_true] at h
      obtain ⟨h1, h2⟩ := h
      cases hc : ax.coord with
      | none => rw [hc] at h1; cases h1
      | some c =>
        rw [hc] at h1
        have hn : n = c.length := by
          have := of_decide_eq_true (by simpa using h1)
          omega
        unfold updateAxesLengths Axis.updateLength
        simp [hc, hn, ih ns h2]


/-- If every axis carries a coordinate vector, a successful length-update
pass returns the very same axes (no axis is replaced). -/
theorem updateAxesLengths_some_coords :
    ∀ (axes : List Axis) (shape : List ℕ) (res : List Axis),
      (∀ ax ∈ axes, ax.coord.isSome = true) →
      updateAxesLengths axes shape = .ok res → res = axes := by
  intro axes
  induction axes with
  | nil =>
    intro shape res _ h
    cases shape <;> (cases h; rfl)
  | cons ax t ih =>
    intro shape res hall h
    cases shape with
    | nil => cases h; rfl
    | cons n ns =>
      have hax : ax.coord.isSome = true := hall ax (by simp)
      obtain ⟨c, hc⟩ := Option.isSome_iff_exists.mp hax
      cases hu : updateAxesLengths t ns with
      | error e =>
        by_cases hn : n = c.length <;>
          simp [updateAxesLengths, Axis.updateLength, hc, hn, hu] at h
      | ok ts =>
        by_cases hn : n = c.length
        · simp only [updateAxesLengths, Axis.updateLength, hc, hn, if_pos, hu] at h
          injection h with h2
          rw [← h2, ih ns ts (fun a ha => hall a (by simp [ha])) hu]
        · simp [updateAxesLengths, Axis.updateLength, hc, hn, hu] at h

/-! ## C4: the binary add contract -/

/-- Whether a data-model operation failed. -/
def failed {α : Type} (r : Except ModelError α) : Bool :=
  match r with
  | .error _ => true
  | .ok _ => false

/-- The state of a `Variable` after a successful `load` (base.py lines
264-292): the data array is present, the stored shape is the array's, the
number of axes matches its dimensionality, and every axis carries a
coordinate vector whose length equals its dimension. -/
def Variable.loadedConsistent (v : Variable) : Bool :=
  match v.data_array with
  | none => false
  | some d =>
      v.shape == d.shape && v.axes.length == d.shape.length &&
        ((List.zip v.axes d.shape).all fun p =>
          match p.1.coord with
          | some c => c.length == p.2
          | none => false)

/-- The name and units of the result of a binary add. -/
def addNameUnits (a b : Variable) : Except ModelError (String × String) :=
  (Variable.add a b).map fun v => (v.name, v.units)

/-- C4: adding two Variables of different shapes fails; adding two loaded
Variables with identical shapes, pairwise numerically identical axis
coordinate vectors, and identical units succeeds, and the new Variable's
name is the two names joined by " + " while its units are the left
operand's.  (A data-less base `Variable` cannot auto-load, so the success
half is about loaded operands.) -/
theorem variable_add_contract :
    (∀ a b : Variable, a.shape ≠ b.shape → failed (Variable.add a b) = true)
    ∧ (∀ a b : Variable, a.loadedConsistent = true → b.loadedConsistent = true →
      a.units = b.units → a.shape = b.shape →
      ((List.zip a.axes b.axes).all fun p => axisCoordsEqual p.1 p.2) = true →
      addNameUnits a b = .ok (a.name ++ " + " ++ b.name, a.units)) := by
  constructor
  · intro a b hsh
    unfold Variable.add binCheckAndCreateVar
    by_cases hu : a.units ≠ b.units
    · rw [if_pos (show (true = true) ∧ a.units ≠ b.units from ⟨rfl, hu⟩)]
      rfl
    · rw [if_neg (show ¬((true = true) ∧ a.units ≠ b.units) from fun hc => hu hc.2),
        if_pos hsh]
      rfl
  · intro a b ha hb hu hsh hco
    obtain ⟨da, hda⟩ : ∃ d, a.data_array = some d := by
      unfold Variable.loadedConsistent at ha
      cases h : a.data_array with
      | none => rw [h] at ha; cases ha
      | some d => exact ⟨d, rfl⟩
    obtain ⟨db, hdb⟩ : ∃ d, b.data_array = some d := by
      unfold Variable.loadedConsistent at hb
      cases h : b.data_array with
      | none => rw [h] at hb; cases hb
      | some d => exact ⟨d, rfl⟩
    unfold Variable.loadedConsistent at ha
    rw [hda] at ha
    simp only [Bool.and_eq_true, beq_iff_eq] at ha
    obtain ⟨⟨hash, halen⟩, hacoord⟩ := ha
    unfold addNameUnits Variable.add binCheckAndCreateVar
    rw [if_neg (by simp [hu]), if_neg (by simp [hsh]), hda, hdb]
    simp only [Option.isSome_some, Option.isNone_some, Bool.false_eq_true, if_false, hco,
      Bool.not_true]
    rw [hda, hdb]
    simp only [Option.getD_some]
    unfold mkVariable
    rw [show (NDArray.add da db).shape = da.shape from rfl]
    rw [if_neg (show ¬(a.axes.length ≠ da.shape.length) from fun hc => hc halen)]
    rw [updateAxesLengths_of_consistent a.axes da.shape hacoord]
    rfl

/-- A loaded two-point variable fixture. -/
def loadedVar (nm un : String) (atts : List (String × String)) : Variable :=
  { name := nm, units := un, axes := [axShared],
    data_array := some ⟨[2], [⟨1, 0⟩, ⟨2, 0⟩]⟩, shape := [2], atts := atts }

/-- Witness for C4: mismatched shapes fail; a well-formed pair adds with
the derived name and the left units. -/
theorem variable_add_contract_witness :
    failed (Variable.add (loadedVar "A" "K" []) { loadedVar "B" "K" [] with shape := [3] }) = true
    ∧ addNameUnits (loadedVar "A" "K" []) (loadedVar "B" "K" []) = .ok ("A + B", "K") :=
  ⟨variable_add_contract.1 (loadedVar "A" "K" []) { loadedVar "B" "K" [] with shape := [3] }
      (by decide),
    variable_add_contract.2 (loadedVar "A" "K" []) (loadedVar "B" "K" [])
      (by decide) (by decide) (by decide) (by decide) (by decide)⟩

/-! ## C5: attributes and axes of binary-operator results -/

/-- Follows the spec's words for C5: "the intersection of both operands'
attributes restricted to agreeing values" plus the derived name and units
entries, to be compared with what the code computes. -/
def specIntersectionAtts (aAtts bAtts : List (String × String)) (nm un : String) :
    List (String × String) :=
  dictSet (dictSet (aAtts.filter fun kv => dlookup kv.1 bAtts == some kv.2) "name" nm)
    "units" un

/-- The result of looking up one attribute key on the sum of two
Variables. -/
def addAttsLookup (a b : Variable) (k : String) : Except ModelError (Option String) :=
  (Variable.add a b).map fun v => dlookup k v.atts

/-- Left operand with a private attribute `foo = 1`. -/
def cAfoo : Variable :=
  loadedVar "A" "K" [("foo", "1")]

/-- Right operand with a private attribute `bar = 2`. -/
def cBbar : Variable :=
  loadedVar "B" "K" [("bar", "2")]

/-- C5 counterexample: adding `cAfoo` and `cBbar` succeeds and the result
keeps `foo` — a key absent from the right operand — while the claimed
intersection of the two attribute mappings would drop it. -/
theorem variable_binop_atts_not_intersection :
    addAttsLookup cAfoo cBbar "foo" = .ok (some "1")
    ∧ dlookup "foo" (specIntersectionAtts cAfoo.atts cBbar.atts "A + B" "K") = none :=
  ⟨by decide, by decide⟩

/-- C5 corrected: for any binary operator built on the shared decorator
(`+`, `-`, `*` and `/` all are), a successful application reuses the left
operand's axis objects unchanged, and its attribute mapping keeps exactly
the left operand's attributes on which the right operand does not
disagree — keys only in the left operand are kept, keys on which the
right disagrees are dropped, keys only in the right are dropped without
raising — plus the derived name and units entries. -/
theorem binop_atts_and_axes :
    (∀ (su : Bool) (f : Variable → Variable → NDArray × String × String) (a b v : Variable),
      binCheckAndCreateVar su f a b = .ok v →
      (a.atts.map Prod.fst).Nodup →
      (∀ ax ∈ a.axes, ax.coord.isSome = true) →
      v.axes = a.axes
      ∧ dlookup "name" v.atts = some v.name
      ∧ dlookup "units" v.atts = some v.units
      ∧ ∀ k, k ≠ "name" → k ≠ "units" →
        dlookup k v.atts =
          match dlookup k a.atts with
          | some va =>
            match dlookup k b.atts with
            | some vb => if vb = va then some va else none
            | none => some va
          | none => none)
    ∧ addAttsLookup cAfoo cBbar "bar" = .ok none := by
  constructor
  · intro su f a b v hok hA hax
    unfold binCheckAndCreateVar at hok
    split at hok
    · exact absurd hok (by simp)
    split at hok
    · exact absurd hok (by simp)
    split at hok
    · exact absurd hok (by simp)
    split at hok
    · exact absurd hok (by simp)
    split at hok
    · exact absurd hok (by simp)
    rcases hf : f a b with ⟨data, nm, un⟩
    simp only [hf] at hok
    unfold mkVariable at hok
    by_cases hlen : a.axes.length ≠ data.shape.length
    · rw [if_pos hlen] at hok
      exact absurd hok (by simp)
    rw [if_neg hlen] at hok
    cases hu : updateAxesLengths a.axes data.shape with
    | error e =>
      simp only [hu] at hok
      exact absurd hok (by simp)
    | ok axes' =>
      simp only [hu, Except.ok.injEq] at hok
      have haxes : axes' = a.axes :=
        updateAxesLengths_some_coords a.axes data.shape axes' hax hu
      subst hok
      refine ⟨haxes, ?_, ?_, ?_⟩
      · show dlookup "name" (dictSet (dictSet (mergedAtts a.atts b.atts) "name" nm)
          "units" un) = some nm
        rw [dlookup_dictSet, if_neg (by decide), dlookup_dictSet, if_pos rfl]
      · show dlookup "units" (dictSet (dictSet (mergedAtts a.atts b.atts) "name" nm)
          "units" un) = some un
        rw [dlookup_dictSet, if_pos rfl]
      · intro k hk1 hk2
        show dlookup k (dictSet (dictSet (mergedAtts a.atts b.atts) "name" nm)
          "units" un) = _
        rw [dlookup_dictSet, if_neg (fun hc => hk2 hc.symm),
          dlookup_dictSet, if_neg (fun hc => hk1 hc.symm)]
        exact dlookup_mergedAtts a.atts b.atts hA k
  · decide

/-- The concrete result of `cAfoo + cBbar`. -/
def cVres : Variable :=
  { name := "A + B", units := "K", axes := [axShared],
    data_array := some ⟨[2], [⟨2, 0⟩, ⟨4, 0⟩]⟩, shape := [2],
    atts := [("foo", "1"), ("name", "A + B"), ("units", "K")] }

/-- Witness for C5 on the concrete pair: axes reused, the left-only key
kept with the left value. -/
theorem binop_atts_and_axes_witness :
    cVres.axes = cAfoo.axes ∧ dlookup "foo" cVres.atts = some "1" := by
  have h := binop_atts_and_axes.1 true
    (fun a b =>
      (NDArray.add (a.data_array.getD ⟨[], []⟩) (b.data_array.getD ⟨[], []⟩),
        a.name ++ " + " ++ b.name, a.units))
    cAfoo cBbar cVres (by decide) (by decide) (by decide)
  refine ⟨h.1, ?_⟩
  rw [h.2.2.2 "foo" (by decide) (by decide)]
  decide

/-! ## C8: sequential station ids in the roster -/

/-- A roster data row with the given leading index token, station id and
province, followed by the fixed numeric columns and a two-token name. -/
def mkRow (idx sid pv : String) : List String :=
  [idx, sid, pv, "1948", "1", "1950", "12", "46.2", "-63.1", "25.0", "N", "STN", sid]

/-- The station a `mkRow` parses to. -/
def mkStation (sid pv : String) : ECStation :=
  { id := sid, prov := pv, begin_year := 1948, begin_mon := 1,
    end_year := 1950, end_mon := 12,
    lat := ⟨462, 1⟩, lon := ⟨-631, 1⟩, alt := ⟨250, 1⟩,
    joined := false, name := "STN " ++ sid }

/-- Every row of a successful roster parse carried the 1-based running
counter as its first token — including rows the constraints later skip,
since the counter advances before filtering. -/
theorem parseStationRows_first_tokens (ladd : ECStation → Bool) :
    ∀ (rows : List (List String)) (z : ℕ) (sts : List ECStation),
      parseStationRows ladd z rows = .ok sts →
      ∀ k (hk : k < rows.length),
        ((rows.get ⟨k, hk⟩).get? 0).bind pyInt = some ((z : ℤ) + k + 1) := by
  intro rows
  induction rows with
  | nil => intro z sts _ k hk; exact absurd hk (by simp)
  | cons row rest ih =>
    intro z sts h k hk
    unfold parseStationRows at h
    cases hr : parseStationRow (z + 1) row with
    | error e => rw [hr] at h; exact absurd h (by simp)
    | ok st =>
      rw [hr] at h
      cases k with
      | zero =>
        show (row.get? 0).bind pyInt = some ((z : ℤ) + (0 : ℕ) + 1)
        unfold parseStationRow colInt col at hr
        cases hg : row.get? 0 with
        | none =>
          simp only [hg] at hr
          exact absurd hr (by simp)
        | some s =>
          cases hpi : pyInt s with
          | none =>
            simp only [hg, hpi] at hr
            exact absurd hr (by simp)
          | some w =>
            simp only [hg, hpi] at hr
            by_cases hz : ((z + 1 : ℕ) : ℤ) ≠ w
            · rw [if_pos hz] at hr
              exact absurd hr (by simp)
            · push_neg at hz
              show pyInt s = some ((z : ℤ) + (0 : ℕ) + 1)
              rw [hpi, ← hz]
              simp only [Option.some.injEq]
              push_cast
              ring
      | succ j =>
        cases hrest : parseStationRows ladd (z + 1) rest with
        | error e => rw [hrest] at h; exact absurd h (by simp)
        | ok sts' =>
          have hj := ih (z + 1) sts' hrest j (by simpa using hk)
          simp only [List.get_cons_succ]
          rw [hj]
          congr 1
          push_cast
          ring

/-- C8: the very first roster column must equal the 1-based running row
count: any successful parse forces every row's first token to be its
1-based index (so the counter also advances over rows skipped by
constraints), a 4th data row carrying "3" fails with the sequential-id
`ParseError`, and a roster whose filtered-out middle row still carries
id 2 parses to the two admitted stations. -/
theorem roster_sequential_ids :
    (∀ (ladd : ECStation → Bool) (rows : List (List String)) (z : ℕ) (sts : List ECStation),
      parseStationRows ladd z rows = .ok sts →
      ∀ k (hk : k < rows.length),
        ((rows.get ⟨k, hk⟩).get? 0).bind pyInt = some ((z : ℤ) + k + 1))
    ∧ parseStationRows (fun _ => true) 0
        [mkRow "1" "1001" "PE", mkRow "2" "1002" "PE", mkRow "3" "1003" "PE",
          mkRow "3" "1004" "PE"] = .error .seqIdError
    ∧ parseStationRows (fun st => st.prov == "PE") 0
        [mkRow "1" "1001" "PE", mkRow "2" "1002" "ON", mkRow "3" "1003" "PE"] =
      .ok [mkStation "1001" "PE", mkStation "1003" "PE"] :=
  ⟨fun ladd rows z sts h => parseStationRows_first_tokens ladd rows z sts h,
    by decide, by decide⟩

/-- Witness for C8 at a one-row roster. -/
theorem roster_sequential_ids_witness :
    ((mkRow "1" "1001" "PE").get? 0).bind pyInt = some 1 := by
  have h := roster_sequential_ids.1 (fun _ => true) [mkRow "1" "1001" "PE"] 0
    [mkStation "1001" "PE"] (by decide) 0 (by decide)
  simpa using h

end GeoPy
